import Mathlib

/-!
Verification of the sensor model and override-resolution engine of the
`unraid_mqtt_stats` agent.  The Rust source (`src/config.rs`,
`src/unraid_stats.rs`) is shallowly embedded: Rust `String` becomes Lean
`String`, machine integers become `Nat`/`Int`/`ℚ` at the engine boundary,
`Option` stays `Option`, and the in-place `merge` mutation becomes a pure
function returning the updated record.
-/

namespace UnraidMqtt

/-- Model of Rust `str::split(c)`: split a character list at every occurrence
of a separator satisfying `p`, keeping empty segments.  The result is always
non-empty (splitting the empty list yields `[[]]`, as `"".split(c)` yields
`[""]` in Rust). -/
def splitBy (p : Char → Bool) : List Char → List (List Char)
  | [] => [[]]
  | x :: xs =>
    match splitBy p xs with
    | [] => [[]]
    | h :: t => if p x then [] :: h :: t else (x :: h) :: t

/-- Model of Rust `str::contains(needle)`: `needle` occurs as a contiguous
substring of the haystack. -/
def listContains (needle : List Char) : List Char → Bool
  | [] => needle.isEmpty
  | x :: t => needle.isPrefixOf (x :: t) || listContains needle t

/-- `strContains s sub` models Rust `s.contains(sub)`. -/
def strContains (s sub : String) : Bool :=
  listContains sub.data s.data

/-- Model of Rust `str::trim_end_matches(c)`: drop every trailing occurrence
of the character `c`. -/
def trimEndMatches (c : Char) (s : String) : String :=
  String.mk ((s.data.reverse.dropWhile (· == c)).reverse)

/-- Model of Rust `str::trim_start_matches(c)`: drop every leading occurrence
of the character `c`. -/
def trimStartMatches (c : Char) (s : String) : String :=
  String.mk (s.data.dropWhile (· == c))

/-- Model of Rust `str::lines()`: split at `'\n'`, drop a final empty segment
produced by a trailing newline, and strip one trailing `'\r'` per line. -/
def linesOf (s : String) : List String :=
  let parts := splitBy (· == '\n') s.data
  let parts := if parts.getLast? = some [] then parts.dropLast else parts
  parts.map (fun l => String.mk (if l.getLast? = some '\r' then l.dropLast else l))

/-- Model of Rust `str::split_whitespace()`: maximal runs of non-whitespace
characters, with no empty segments. -/
def splitWhitespaceOf (s : String) : List String :=
  ((splitBy (·.isWhitespace) s.data).filter (· ≠ [])).map String.mk

/-- Value of a non-empty all-digit character list, `none` otherwise. -/
def digitsVal? (l : List Char) : Option ℕ :=
  if l = [] then none
  else if l.all (·.isDigit) then
    some (l.foldl (fun a c => a * 10 + (c.toNat - '0'.toNat)) 0)
  else none

/-- Boundary model of Rust `str::parse::<f64>()` on plain decimal literals
(optional sign, integer digits, optional fractional digits); the value is
represented exactly as a rational. -/
def parseF64? (s : String) : Option ℚ :=
  let core : List Char → Option ℚ := fun l =>
    match splitBy (· == '.') l with
    | [ip] => (digitsVal? ip).map (fun n => mkRat n 1)
    | [ip, fp] =>
      match digitsVal? ip, digitsVal? fp with
      | some n, some f => some (mkRat (n * 10 ^ fp.length + f) (10 ^ fp.length))
      | _, _ => none
    | _ => none
  match s.data with
  | '-' :: t => (core t).map (fun q => -q)
  | '+' :: t => core t
  | l => core l

/-! ## Data model (`src/config.rs`) -/

/-- The Home-Assistant device-class vocabulary (`enum DeviceClass`). -/
inductive DeviceClass
  | date | enumClass | timestamp | apparentPower | aqi | area
  | atmosphericPressure | battery | bloodGlucoseConcentration
  | carbonMonoxide | carbonDioxide | conductivity | current | dataRate
  | dataSize | distance | duration | energy | energyDistance
  | energyStorage | frequency | gas | humidity | illuminance | irradiance
  | moisture | monetary | nitrogenDioxide | nitrogenMonoxide
  | nitrousOxide | ozone | ph | pm1 | pm10 | pm25 | powerFactor | power
  | precipitation | precipitationIntensity | pressure | reactiveEnergy
  | reactivePower | signalStrength | soundPressure | speed
  | sulphurDioxide | temperature | volatileOrganicCompounds
  | volatileOrganicCompoundsParts | voltage | volume | volumeStorage
  | volumeFlowRate | water | weight | windDirection | windSpeed
  deriving DecidableEq, Repr

/-- The post-processing tags of command sensors (`enum PostProcess`). -/
inductive PostProcess
  | trimWhitespace | parseFloat | parseInteger | extractNumber
  | toUpperCase | toLowerCase
  deriving DecidableEq, Repr

/-- An override patch from the user configuration (`struct SensorConfig`);
its `id` is the configuration-map key, copied in by the deserializer. -/
structure SensorConfig where
  id : String
  name : Option String := none
  unit : Option String := none
  device_class : Option DeviceClass := none
  icon : Option String := none
  disabled : Bool := false
  deriving DecidableEq, Repr

/-- A user-defined command sensor (`struct CommandSensor`). -/
structure CommandSensor where
  id : String
  name : String
  unit : Option String := none
  device_class : Option DeviceClass := none
  icon : Option String := none
  command : String
  args : Option (List String) := none
  post_process : Option PostProcess := none
  disabled : Bool := false
  deriving DecidableEq, Repr

/-- Stats of the `SystemSensorReporter` (`enum SystemSensorReporterStat`). -/
inductive SystemSensorReporterStat
  | memoryUsage | memoryUsed | memoryTotal | cpuUsage | uptime
  deriving DecidableEq, Repr

/-- Stats of the `DockerSensorReporter` (`enum DockerSensorReporterStat`). -/
inductive DockerSensorReporterStat
  | imagesCount | imagesSize | volumesCount | runningCount | unhealthyCount
  deriving DecidableEq, Repr

/-- Stats of the per-container reporter
(`enum DockerContainerSensorReporterStat`). -/
inductive DockerContainerSensorReporterStat
  | cpuUsage | memoryUsage | status
  deriving DecidableEq, Repr

/-- Exact model of an IEEE-754 double for the operations the code performs:
a finite value (held exactly as a rational), `NaN`, or a signed infinity. -/
inductive FloatVal
  | finite (q : ℚ)
  | nan
  | inf
  | ninf
  deriving DecidableEq, Repr

/-- IEEE-754 division on `FloatVal`: division of a finite value by zero
yields `NaN` (0/0) or a signed infinity, never a fault. -/
def fdiv : FloatVal → FloatVal → FloatVal
  | .nan, _ => .nan
  | _, .nan => .nan
  | .finite a, .finite b =>
    if b = 0 then (if a = 0 then .nan else if 0 < a then .inf else .ninf)
    else .finite (a / b)
  | .finite _, .inf => .finite 0
  | .finite _, .ninf => .finite 0
  | .inf, .finite b => if 0 ≤ b then .inf else .ninf
  | .ninf, .finite b => if 0 ≤ b then .ninf else .inf
  | .inf, _ => .nan
  | .ninf, _ => .nan

/-- IEEE-754 multiplication on `FloatVal`. -/
def fmul : FloatVal → FloatVal → FloatVal
  | .nan, _ => .nan
  | _, .nan => .nan
  | .finite a, .finite b => .finite (a * b)
  | .finite a, .inf => if a = 0 then .nan else if 0 < a then .inf else .ninf
  | .finite a, .ninf => if a = 0 then .nan else if 0 < a then .ninf else .inf
  | .inf, .finite b => if b = 0 then .nan else if 0 < b then .inf else .ninf
  | .ninf, .finite b => if b = 0 then .nan else if 0 < b then .ninf else .inf
  | .inf, .inf => .inf
  | .inf, .ninf => .ninf
  | .ninf, .inf => .ninf
  | .ninf, .ninf => .inf

/-- Model of Rust `format!("{:.1}", x)` on a double: `NaN`/`inf` render as
their names; a finite value is rounded to one decimal place. -/
def formatPrec1 : FloatVal → String
  | .nan => "NaN"
  | .inf => "inf"
  | .ninf => "-inf"
  | .finite q =>
    let n : ℤ := round (q * 10)
    let render : ℕ → String := fun m => toString (m / 10) ++ "." ++ toString (m % 10)
    if n < 0 then "-" ++ render n.natAbs else render n.toNat

/-- Snapshot of the host provided by the `sysinfo` crate (`sysinfo::System`):
memory counters are `u64`, CPU utilisation is a float. -/
structure SysinfoSystem where
  total_memory : ℕ
  used_memory : ℕ
  global_cpu_usage : FloatVal
  uptime : ℕ
  deriving DecidableEq, Repr

/-- The host-metrics reporter (`struct SystemSensorReporter`). -/
structure SystemSensorReporter where
  system : SysinfoSystem
  name : SystemSensorReporterStat
  deriving DecidableEq, Repr

/-- `SystemSensorReporter::get_value`: a pure computation over the snapshot;
every branch returns `Some` of a formatted string.  The `memoryUsed` and
`memoryTotal` branches hand a `u64` to `format!("{:.1}", _)`, and Rust's
integer `Display` ignores the precision, so they render plain integers. -/
def SystemSensorReporter.get_value (r : SystemSensorReporter) : Option String :=
  match r.name with
  | .memoryUsage =>
    some (formatPrec1 (fmul
      (fdiv (.finite (r.system.used_memory : ℚ)) (.finite (r.system.total_memory : ℚ)))
      (.finite 100)))
  | .memoryUsed => some (toString r.system.used_memory)
  | .memoryTotal => some (toString r.system.total_memory)
  | .cpuUsage => some (formatPrec1 r.system.global_cpu_usage)
  | .uptime => some (toString r.system.uptime)

/-- The transform closure attached to a `CommandSensorReporter`, identified by
its construction site: either the tag-driven post-processing pipeline of
`From<&CommandSensor>`, or one of the built-in output parsers. -/
inductive CommandTransform
  | post (p : Option PostProcess)
  | diskUsagePercent
  | diskTotal
  | diskAvailable
  | cpuTemp
  | arrayStatus
  deriving DecidableEq, Repr

/-- The shell-command reporter (`struct CommandSensorReporter`). -/
structure CommandSensorReporter where
  command : String
  args : Option (List String) := none
  transform : CommandTransform
  deriving DecidableEq, Repr

/-- The part of Docker's `ContainerSummary` the core reads. -/
structure ContainerSummary where
  names : Option (List String) := none
  status : Option String := none
  deriving DecidableEq, Repr

/-- The per-container reporter (`struct DockerContainerSensorReporter`); the
engine handle and the shared stats stash are external resources and carry no
data relevant to the sensor list. -/
structure DockerContainerSensorReporter where
  container : ContainerSummary
  stat : DockerContainerSensorReporterStat
  deriving DecidableEq, Repr

/-- The polymorphic reporter bound to a sensor (`enum SensorReporterType`). -/
inductive SensorReporterType
  | system (r : SystemSensorReporter)
  | command (r : CommandSensorReporter)
  | dockerContainer (r : DockerContainerSensorReporter)
  | docker (stat : DockerSensorReporterStat)
  deriving DecidableEq, Repr

/-- The canonical runtime sensor entity (`struct Sensor`); the field defaults
model `..Default::default()`. -/
structure Sensor where
  id : String := ""
  name : String := ""
  unit : Option String := none
  device_class : Option DeviceClass := none
  icon : Option String := none
  disabled : Bool := false
  reporter : Option SensorReporterType := none
  deriving DecidableEq, Repr

/-- `Sensor::merge`: apply an override patch in place.  Guard: a patch whose
id differs from the sensor's and is not a wildcard key (does not contain
`"_*_"`) is ignored.  Each present patch field overwrites the sensor field;
`disabled` is copied only when the patch's `disabled` is true. -/
def Sensor.merge (s : Sensor) (other : SensorConfig) : Sensor :=
  if s.id ≠ other.id ∧ strContains other.id "_*_" = false then s
  else
    { s with
      name := match other.name with | some n => n | none => s.name
      unit := match other.unit with | some u => some u | none => s.unit
      device_class :=
        match other.device_class with | some d => some d | none => s.device_class
      icon := match other.icon with | some i => some i | none => s.icon
      disabled := if other.disabled then other.disabled else s.disabled }

/-- `Sensor::sensor_topic`. -/
def Sensor.sensor_topic (s : Sensor) (node_id : String) : String :=
  node_id ++ "/sensor/" ++ s.id ++ "/state"

/-- `Sensor::discovery_topic`. -/
def Sensor.discovery_topic (s : Sensor) (discovery_root node_id : String) : String :=
  discovery_root ++ "/sensor/" ++ node_id ++ "/" ++ s.id ++ "/config"

/-- The discovery document built by `Sensor::disovery_config`; `device` is the
caller-supplied metadata passed through opaquely. -/
structure DiscoveryConfig where
  name : String
  state_topic : String
  unique_id : String
  device : String
  unit_of_measurement : Option String
  device_class : Option DeviceClass := none
  icon : Option String := none
  deriving DecidableEq, Repr

/-- `Sensor::disovery_config` (sic): renders the discovery document;
`device_class` and `icon` are added only when present, and the icon is
unconditionally prefixed with `"mdi:"`. -/
def Sensor.disovery_config (s : Sensor) (device_name node_id device_info : String) :
    DiscoveryConfig :=
  { name := device_name ++ " " ++ s.name
    state_topic := s.sensor_topic node_id
    unique_id := node_id ++ "_" ++ s.id
    device := device_info
    unit_of_measurement := s.unit
    device_class := s.device_class
    icon := s.icon.map (fun icon_str => "mdi:" ++ icon_str) }

/-! ## User configuration (`struct Config`, `enum Sensors`) -/

/-- A configuration entry (`enum Sensors`): an override patch or a new
command sensor. -/
inductive Sensors
  | sensorOverride (c : SensorConfig)
  | command (c : CommandSensor)
  deriving DecidableEq, Repr

/-- The user configuration (`struct Config`): a map from sensor id or
wildcard id to a tagged entry, modelled as an association list. -/
structure Config where
  sensors : List (String × Sensors)
  deriving DecidableEq, Repr

/-- `HashMap::get` on the configuration map. -/
def Config.get (c : Config) (k : String) : Option Sensors :=
  (c.sensors.find? (fun e => e.1 = k)).map (·.2)

/-- The id the deserializer copies into a configuration entry (its map key). -/
def Sensors.entryId : Sensors → String
  | .sensorOverride sc => sc.id
  | .command cs => cs.id

/-- Invariant established by `deserialize_sensors`: every entry's embedded id
equals its map key. -/
def Config.wellformed (c : Config) : Prop :=
  ∀ e ∈ c.sensors, Sensors.entryId e.2 = e.1

instance (c : Config) : Decidable (Config.wellformed c) :=
  inferInstanceAs (Decidable (∀ e ∈ c.sensors, Sensors.entryId e.2 = e.1))

/-- `From<&CommandSensor> for Sensor`: 1:1 conversion into a sensor with a
shell-command reporter whose transform is chosen by the post-process tag. -/
def commandToSensor (cs : CommandSensor) : Sensor :=
  { id := cs.id
    name := cs.name
    unit := cs.unit
    device_class := cs.device_class
    icon := cs.icon
    disabled := cs.disabled
    reporter := some (.command
      { command := cs.command, args := cs.args, transform := .post cs.post_process }) }

/-! ## Catalog builder and override engine (`src/unraid_stats.rs`) -/

/-- The first alias of a container, with leading `'/'` stripped, or
`"unknown"` when no name is available (`UnraidStats::container_sensors`). -/
def container_name (c : ContainerSummary) : String :=
  match c.names.bind (·.head?) with
  | some n => trimStartMatches '/' n
  | none => "unknown"

/-- The per-container sensor triplet (CPU, memory, status) built by
`UnraidStats::container_sensors`. -/
def container_sensors (device_name : String) (c : ContainerSummary) : List Sensor :=
  let n := container_name c
  [ { id := "dockercontainer_" ++ n ++ "_cpu"
      name := device_name ++ " Docker " ++ n ++ " CPU"
      icon := some "mdi:cpu-64-bit"
      unit := some "%"
      reporter := some (.dockerContainer { container := c, stat := .cpuUsage }) },
    { id := "dockercontainer_" ++ n ++ "_memory"
      name := device_name ++ " Docker " ++ n ++ " Memory"
      icon := some "mdi:memory"
      unit := some "B"
      device_class := some .dataSize
      reporter := some (.dockerContainer { container := c, stat := .memoryUsage }) },
    { id := "dockercontainer_" ++ n ++ "_uptime"
      name := device_name ++ " Docker " ++ n ++ " Uptime"
      icon := some "mdi:docker"
      reporter := some (.dockerContainer { container := c, stat := .status }) } ]

/-- The fixed built-in sensors constructed at the top of
`UnraidStats::sensors`; `sys` models the `System::new_all()` snapshots the
system reporters capture. -/
def staticSensors (sys : SysinfoSystem) : List Sensor :=
  [ { id := "cpu_usage", name := "CPU Usage", unit := some "%"
      reporter := some (.system { system := sys, name := .cpuUsage }) },
    { id := "memory_usage", name := "Memory Usage", unit := some "%"
      reporter := some (.system { system := sys, name := .memoryUsage }) },
    { id := "memory_total", name := "Memory Total", unit := some "B"
      device_class := some .dataSize, icon := some "memory"
      reporter := some (.system { system := sys, name := .memoryTotal }) },
    { id := "memory_used", name := "Memory Used", unit := some "B"
      device_class := some .dataSize, icon := some "memory"
      reporter := some (.system { system := sys, name := .memoryUsed }) },
    { id := "disk_usage", name := "Disk Usage", unit := some "%"
      reporter := some (.command
        { command := "df", args := some ["-BM", "/mnt/user"],
          transform := .diskUsagePercent }) },
    { id := "disk_total", name := "Disk Total", unit := some "B"
      device_class := some .dataSize, icon := some "data_size"
      reporter := some (.command
        { command := "df", args := some ["/mnt/user"], transform := .diskTotal }) },
    { id := "disk_available", name := "Disk Available", unit := some "B"
      device_class := some .dataSize, icon := some "data_size"
      reporter := some (.command
        { command := "df", args := some ["/mnt/user"], transform := .diskAvailable }) },
    { id := "cpu_temp", name := "CPU Temperature", unit := some "°C"
      device_class := some .temperature
      reporter := some (.command
        { command := "sensor", args := none, transform := .cpuTemp }) },
    { id := "uptime", name := "Uptime", icon := some "duration"
      reporter := some (.system { system := sys, name := .uptime }) },
    { id := "array_status", name := "Array Status"
      reporter := some (.command
        { command := "mdcmd", args := some ["status"], transform := .arrayStatus }) },
    { id := "docker_containers_running", name := "Docker Containers Running"
      icon := some "docker", reporter := some (.docker .runningCount) },
    { id := "docker_containers_unhealthy", name := "Docker Containers Unhealthy"
      icon := some "docker", reporter := some (.docker .unhealthyCount) },
    { id := "docker_images_count", name := "Docker Images"
      icon := some "docker", reporter := some (.docker .imagesCount) },
    { id := "docker_images_size", name := "Docker Images Size"
      icon := some "data_size", device_class := some .dataSize, unit := some "B"
      reporter := some (.docker .imagesSize) },
    { id := "docker_volumes_count", name := "Docker Volumes"
      icon := some "docker", reporter := some (.docker .volumesCount) } ]

/-- The wildcard candidate key derived in `UnraidStats::sensors`: the id's
first `'_'`-delimited segment, then `"_*_"`, then the last segment of the
remaining iterator (`""` when the iterator is exhausted, as with
`unwrap_or("")`). -/
def star_id (id : String) : String :=
  let parts := splitBy (· == '_') id.data
  String.mk (parts.headD []) ++ "_*_" ++ String.mk ((parts.drop 1).getLast?.getD [])

/-- The two successive override lookups of `UnraidStats::sensors`: wildcard
key first, exact id second, each applied via `merge` when the entry is an
override. -/
def apply_overrides (cfg : Config) (s : Sensor) : Sensor :=
  let s1 :=
    match cfg.get (star_id s.id) with
    | some (.sensorOverride u) => s.merge u
    | _ => s
  match cfg.get s.id with
  | some (.sensorOverride u) => s1.merge u
  | _ => s1

/-- The command sensors appended after override processing: every
command-typed configuration entry, converted via `From<&CommandSensor>`. -/
def command_sensors_of (cfg : Config) : List Sensor :=
  cfg.sensors.filterMap (fun e =>
    match e.2 with
    | .command cs => some (commandToSensor cs)
    | _ => none)

/-- `UnraidStats::sensors`: static built-ins, then the per-container
triplets, with overrides applied to each and the configured command sensors
appended (no configuration leaves the catalog untouched). -/
def sensors_list (device_name : String) (containers : List ContainerSummary)
    (sys : SysinfoSystem) (cfg : Option Config) : List Sensor :=
  let base := staticSensors sys ++ containers.flatMap (container_sensors device_name)
  match cfg with
  | none => base
  | some c => base.map (apply_overrides c) ++ command_sensors_of c

/-! ## Shell-output parsing (`src/unraid_stats.rs`) -/

/-- The record produced by `parse_disk_usage` (`struct DiskInfo`). -/
structure DiskInfo where
  total : String
  available : String
  usage_percent : ℚ
  deriving DecidableEq, Repr

/-- `parse_disk_usage`: skip the first line of the `df` output (the header),
split the next line on whitespace, and require at least 5 fields; the
percent field is parsed with trailing `'%'` stripped. -/
def parse_disk_usage (df_output : String) : Option DiskInfo :=
  match (linesOf df_output).drop 1 with
  | [] => none
  | line :: _ =>
    let parts := splitWhitespaceOf line
    if 5 ≤ parts.length then
      match parseF64? (trimEndMatches '%' (parts.getD 4 "")) with
      | some up => some ⟨parts.getD 1 "", parts.getD 3 "", up⟩
      | none => none
    else none

/-! ## Container CPU percentage (`src/config.rs`) -/

/-- `ContainerCpuUsage` from the engine's stats response; `total_usage` is a
`u64` counter, modelled as a natural number (its values lie below
`2 ^ 64`). -/
structure ContainerCpuUsage where
  total_usage : Option ℕ := none
  deriving DecidableEq, Repr

/-- `ContainerCpuStats` from the engine's stats response;
`system_cpu_usage` is a `u64` counter and `online_cpus` a `u32` count. -/
structure ContainerCpuStats where
  cpu_usage : Option ContainerCpuUsage := none
  system_cpu_usage : Option ℕ := none
  online_cpus : Option ℕ := none
  deriving DecidableEq, Repr

/-- The part of `ContainerStatsResponse` read by `calculate_cpu_percent`. -/
structure ContainerStatsResponse where
  cpu_stats : Option ContainerCpuStats := none
  precpu_stats : Option ContainerCpuStats := none
  deriving DecidableEq, Repr

/-- The `total_usage` counter of a stats block, `0` when any link of the
option chain is absent (`unwrap_or_default`). -/
def totalUsageOf (c : Option ContainerCpuStats) : ℕ :=
  (c.bind (fun x => x.cpu_usage.bind (·.total_usage))).getD 0

/-- The `system_cpu_usage` counter of a stats block, `0` when absent. -/
def systemUsageOf (c : Option ContainerCpuStats) : ℕ :=
  (c.bind (·.system_cpu_usage)).getD 0

/-- The `u64` modulus. -/
def u64Mod : ℕ := 2 ^ 64

/-- Rust `u64` subtraction `a - b` in release mode: the result wraps modulo
`2 ^ 64` when `b > a` (a debug build panics there instead; in neither mode
does the program produce a negative delta). -/
def u64Sub (a b : ℕ) : ℕ :=
  (a + u64Mod - b) % u64Mod

/-- `cpu_delta` of `calculate_cpu_percent`: the `u64` subtraction of the
previous from the current container CPU counter. -/
def cpu_delta (stats : ContainerStatsResponse) : ℕ :=
  u64Sub (totalUsageOf stats.cpu_stats) (totalUsageOf stats.precpu_stats)

/-- `system_delta` of `calculate_cpu_percent`: the `u64` subtraction of the
previous from the current system-wide CPU counter. -/
def system_delta (stats : ContainerStatsResponse) : ℕ :=
  u64Sub (systemUsageOf stats.cpu_stats) (systemUsageOf stats.precpu_stats)

/-- The `online_cpus` count, `0` when absent. -/
def onlineCpusOf (stats : ContainerStatsResponse) : ℕ :=
  (stats.cpu_stats.bind (·.online_cpus)).getD 0

/-- `calculate_cpu_percent`: `(cpu_delta / system_delta) * online_cpus * 100`
when both `u64` deltas are positive (i.e. non-zero), else `0.0`; the double
arithmetic is modelled exactly over the rationals, and the deltas wrap
modulo `2 ^ 64` when a current counter is below its previous value. -/
def calculate_cpu_percent (stats : ContainerStatsResponse) : ℚ :=
  if 0 < system_delta stats ∧ 0 < cpu_delta stats then
    ((cpu_delta stats : ℚ) / (system_delta stats : ℚ)) * (onlineCpusOf stats : ℚ) * 100
  else 0

/-! ## Basic properties of `merge` -/

/-- `merge` never changes the sensor's id. -/
theorem merge_id (s : Sensor) (p : SensorConfig) : (s.merge p).id = s.id := by
  unfold Sensor.merge
  split <;> rfl

/-- `merge` never changes the sensor's reporter. -/
theorem merge_reporter (s : Sensor) (p : SensorConfig) :
    (s.merge p).reporter = s.reporter := by
  unfold Sensor.merge
  split <;> rfl

/-- When the guard passes (matching id, or a wildcard patch id), `merge`
produces the field-by-field overwrite. -/
theorem merge_applied (s : Sensor) (p : SensorConfig)
    (h : p.id = s.id ∨ strContains p.id "_*_" = true) :
    s.merge p = { s with
      name := match p.name with | some n => n | none => s.name
      unit := match p.unit with | some u => some u | none => s.unit
      device_class :=
        match p.device_class with | some d => some d | none => s.device_class
      icon := match p.icon with | some i => some i | none => s.icon
      disabled := if p.disabled then p.disabled else s.disabled } := by
  have hg : ¬(s.id ≠ p.id ∧ strContains p.id "_*_" = false) := by
    rcases h with h | h
    · exact fun hc => hc.1 h.symm
    · exact fun hc => Bool.noConfusion (h.symm.trans hc.2)
  unfold Sensor.merge
  rw [if_neg hg]

/-- C1: for a patch with the sensor's own id, `merge` overwrites exactly the
fields present in the patch, leaves absent fields (and `id`/`reporter`)
unchanged, and overwrites `disabled` only when the patch's `disabled` is
true — an explicit `disabled = false` is never applied, so merge can disable
but never re-enable. -/
theorem merge_same_id_spec (s : Sensor) (p : SensorConfig) (h : p.id = s.id) :
    (s.merge p).id = s.id ∧ (s.merge p).reporter = s.reporter
    ∧ (p.name = none → (s.merge p).name = s.name)
    ∧ (∀ v, p.name = some v → (s.merge p).name = v)
    ∧ (p.unit = none → (s.merge p).unit = s.unit)
    ∧ (∀ v, p.unit = some v → (s.merge p).unit = some v)
    ∧ (p.device_class = none → (s.merge p).device_class = s.device_class)
    ∧ (∀ v, p.device_class = some v → (s.merge p).device_class = some v)
    ∧ (p.icon = none → (s.merge p).icon = s.icon)
    ∧ (∀ v, p.icon = some v → (s.merge p).icon = some v)
    ∧ (p.disabled = true → (s.merge p).disabled = true)
    ∧ (p.disabled = false → (s.merge p).disabled = s.disabled) := by
  rw [merge_applied s p (Or.inl h)]
  refine ⟨rfl, rfl, ?_, ?_, ?_, ?_, ?_, ?_, ?_, ?_, ?_, ?_⟩ <;>
    first
      | (intro v hv; simp [hv])
      | (intro hv; simp [hv])

/-- Sample sensor for concrete witnesses. -/
def sensorA : Sensor :=
  { id := "cpu_temp", name := "CPU Temperature", unit := some "°C",
    device_class := some .temperature, icon := none, disabled := false,
    reporter := some (.docker .imagesCount) }

/-- Sample same-id patch for concrete witnesses. -/
def patchA : SensorConfig :=
  { id := "cpu_temp", name := some "Core Temp", icon := some "thermometer",
    disabled := false }

/-- Witness for C1 at a concrete sensor and patch: present fields overwrite,
absent fields persist, `disabled = false` in the patch is not applied. -/
theorem merge_same_id_spec_witness :
    (sensorA.merge patchA).name = "Core Temp"
    ∧ (sensorA.merge patchA).icon = some "thermometer"
    ∧ (sensorA.merge patchA).unit = sensorA.unit
    ∧ (sensorA.merge patchA).disabled = sensorA.disabled
    ∧ (sensorA.merge patchA).reporter = sensorA.reporter :=
  ⟨(merge_same_id_spec sensorA patchA rfl).2.2.2.1 "Core Temp" rfl,
   (merge_same_id_spec sensorA patchA rfl).2.2.2.2.2.2.2.2.2.1 "thermometer" rfl,
   (merge_same_id_spec sensorA patchA rfl).2.2.2.2.1 rfl,
   (merge_same_id_spec sensorA patchA rfl).2.2.2.2.2.2.2.2.2.2.2 rfl,
   (merge_same_id_spec sensorA patchA rfl).2.1⟩

/-- C9: a patch whose id neither equals the sensor's id nor is a wildcard key
(contains no `"_*_"`) is a complete no-op: the merged sensor is the original,
every field — id, name, unit, device_class, icon, disabled, reporter —
included. -/
theorem merge_other_id_noop (s : Sensor) (p : SensorConfig)
    (h1 : p.id ≠ s.id) (h2 : strContains p.id "_*_" = false) :
    s.merge p = s := by
  unfold Sensor.merge
  rw [if_pos ⟨Ne.symm h1, h2⟩]

/-- Witness for C9: a fully-populated patch under a foreign, non-wildcard id
leaves a concrete sensor untouched. -/
theorem merge_other_id_noop_witness :
    sensorA.merge
      { id := "memory_usage", name := some "Hijack", unit := some "X",
        device_class := some .power, icon := some "bomb", disabled := true }
      = sensorA :=
  merge_other_id_noop sensorA _ (by decide) (by decide)

/-- C3: when the configuration holds a wildcard override for the sensor's
derived wildcard key and an exact override under the sensor's own id, the
engine merges the wildcard patch first and the exact patch second, so every
field present in the exact patch is the value left in the final sensor. -/
theorem exact_override_wins (cfg : Config) (s : Sensor) (w e : SensorConfig)
    (hw : cfg.get (star_id s.id) = some (.sensorOverride w))
    (he : cfg.get s.id = some (.sensorOverride e))
    (hid : e.id = s.id) :
    apply_overrides cfg s = (s.merge w).merge e
    ∧ (∀ v, e.name = some v → (apply_overrides cfg s).name = v)
    ∧ (∀ v, e.unit = some v → (apply_overrides cfg s).unit = some v)
    ∧ (∀ v, e.device_class = some v → (apply_overrides cfg s).device_class = some v)
    ∧ (∀ v, e.icon = some v → (apply_overrides cfg s).icon = some v)
    ∧ (e.disabled = true → (apply_overrides cfg s).disabled = true) := by
  have hord : apply_overrides cfg s = (s.merge w).merge e := by
    unfold apply_overrides
    rw [hw, he]
  have happ := merge_applied (s.merge w) e (Or.inl (hid.trans (merge_id s w).symm))
  refine ⟨hord, ?_, ?_, ?_, ?_, ?_⟩
  all_goals rw [hord, happ]
  all_goals
    first
      | (intro v hv; simp [hv])
      | (intro hv; simp [hv])

/-- Wildcard patch of the competing-override witness configuration. -/
def wildPatch : SensorConfig :=
  { id := "dockercontainer_*_cpu", name := some "Wild Name",
    unit := some "wild", disabled := true }

/-- Exact patch of the competing-override witness configuration. -/
def exactPatch : SensorConfig :=
  { id := "dockercontainer_web_cpu", name := some "Exact Name" }

/-- Configuration with both a wildcard and an exact override competing for
the same sensor, for concrete witnesses. -/
def cfgBoth : Config :=
  ⟨[("dockercontainer_*_cpu", .sensorOverride wildPatch),
    ("dockercontainer_web_cpu", .sensorOverride exactPatch)]⟩

/-- Sample built-in per-container CPU sensor for concrete witnesses. -/
def sensorWebCpu : Sensor :=
  { id := "dockercontainer_web_cpu", name := "srv Docker web CPU",
    unit := some "%", icon := some "mdi:cpu-64-bit" }

/-- Witness for C3: with both overrides present, the exact override's `name`
wins over the wildcard's in the final sensor. -/
theorem exact_override_wins_witness :
    (apply_overrides cfgBoth sensorWebCpu).name = "Exact Name" :=
  (exact_override_wins cfgBoth sensorWebCpu wildPatch exactPatch (by decide)
    (by decide) rfl).2.1 "Exact Name" rfl

/-! ## Wildcard-key derivation -/

/-- Splitting at a separator that never occurs yields the whole list as the
single segment. -/
theorem splitBy_of_forall (p : Char → Bool) (l : List Char)
    (h : ∀ c ∈ l, p c = false) : splitBy p l = [l] := by
  induction l with
  | nil => rfl
  | cons x xs ih =>
    have hx : p x = false := h x (List.mem_cons_self x xs)
    have hxs := ih (fun c hc => h c (List.mem_cons_of_mem x hc))
    simp [splitBy, hxs, hx]

/-- C2 (amended): wildcard derivation is a pure function of the id that maps
`"dockercontainer_myapp_cpu"` to `"dockercontainer_*_cpu"` and the degenerate
`"cpu_usage"` to `"cpu_*_usage"` without crashing; for an id with no
underscore the single segment is consumed as the first segment and the
remaining iterator is exhausted, so the result is `"{id}_*_"` with an empty
last segment (not `"{id}_*_{id}"`). -/
theorem star_id_cases :
    star_id "dockercontainer_myapp_cpu" = "dockercontainer_*_cpu"
    ∧ star_id "cpu_usage" = "cpu_*_usage"
    ∧ ∀ id : String, (∀ c ∈ id.data, c ≠ '_') → star_id id = id ++ "_*_" := by
  refine ⟨by decide, by decide, ?_⟩
  intro id h
  have hsplit : splitBy (· == '_') id.data = [id.data] :=
    splitBy_of_forall _ _ (fun c hc => by simpa using h c hc)
  apply String.ext
  simp [star_id, hsplit]

/-- Counterexample to C2 as stated: for the underscore-free id `"uptime"`
the derived key is `"uptime_*_"`, not the claimed `"uptime_*_uptime"`. -/
theorem star_id_single_segment_cex :
    star_id "uptime" = "uptime_*_" ∧ star_id "uptime" ≠ "uptime_*_uptime" := by
  decide

/-- Witness for C2 (amended) at the concrete underscore-free id `"cpu"`. -/
theorem star_id_cases_witness : star_id "cpu" = "cpu" ++ "_*_" :=
  star_id_cases.2.2 "cpu" (by decide)

/-! ## Container CPU percentage -/

/-- When either computed `u64` delta is zero (the only way an unsigned delta
can fail the `> 0` guard), the result is zero. -/
theorem calculate_cpu_percent_zero_delta (stats : ContainerStatsResponse)
    (h : cpu_delta stats = 0 ∨ system_delta stats = 0) :
    calculate_cpu_percent stats = 0 := by
  unfold calculate_cpu_percent
  rw [if_neg]
  rintro ⟨h1, h2⟩
  rcases h with h | h <;> omega

/-- When both computed deltas are positive, the result is the quotient
formula. -/
theorem calculate_cpu_percent_pos (stats : ContainerStatsResponse)
    (hc : 0 < cpu_delta stats) (hs : 0 < system_delta stats) :
    calculate_cpu_percent stats
      = (cpu_delta stats : ℚ) / (system_delta stats : ℚ)
          * (onlineCpusOf stats : ℚ) * 100 := by
  unfold calculate_cpu_percent
  rw [if_pos ⟨hs, hc⟩]

/-- Concrete stats sample: `cpu_delta = 50`, `system_delta = 100`,
`online_cpus = 4`. -/
def statsSample : ContainerStatsResponse :=
  { cpu_stats := some
      { cpu_usage := some { total_usage := some 50 },
        system_cpu_usage := some 100, online_cpus := some 4 },
    precpu_stats := some
      { cpu_usage := some { total_usage := some 0 },
        system_cpu_usage := some 0 } }

/-- Stats whose current CPU counter is below the previous one, so the
mathematical delta `current - previous` is negative. -/
def statsWrap : ContainerStatsResponse :=
  { cpu_stats := some
      { cpu_usage := some { total_usage := some 50 },
        system_cpu_usage := some 100, online_cpus := some 4 },
    precpu_stats := some
      { cpu_usage := some { total_usage := some 100 },
        system_cpu_usage := some 0 } }

/-- Counterexample to C5 as stated: with the current CPU counter below the
previous one the mathematical delta is `-50 ≤ 0`, but the `u64` subtraction
wraps to `2 ^ 64 - 50`, the positive-delta guard passes, and the computation
returns the astronomical `(2 ^ 64 - 50) * 4` — not the claimed `0.0`. -/
theorem calculate_cpu_percent_wrap_cex :
    (totalUsageOf statsWrap.cpu_stats : ℤ)
        - (totalUsageOf statsWrap.precpu_stats : ℤ) ≤ 0
    ∧ cpu_delta statsWrap = 2 ^ 64 - 50
    ∧ calculate_cpu_percent statsWrap = ((2 ^ 64 - 50 : ℕ) : ℚ) * 4
    ∧ calculate_cpu_percent statsWrap ≠ 0 := by
  have h3 : calculate_cpu_percent statsWrap = ((2 ^ 64 - 50 : ℕ) : ℚ) * 4 := by
    rw [calculate_cpu_percent_pos statsWrap (by decide) (by decide),
      show cpu_delta statsWrap = 2 ^ 64 - 50 from by decide,
      show system_delta statsWrap = 100 from by decide,
      show onlineCpusOf statsWrap = 4 from by decide]
    ring
  refine ⟨by decide, by decide, h3, ?_⟩
  rw [h3]
  have hne : ((2 ^ 64 - 50 : ℕ) : ℚ) ≠ 0 := by
    rw [Ne, Nat.cast_eq_zero]
    decide
  exact mul_ne_zero hne (by norm_num)

/-- C5 (amended): the engine counters are `u64`, so each delta is a `u64`
subtraction that wraps modulo `2 ^ 64` when the current counter is below the
previous one; a computed delta is never negative, so the computation returns
exactly `0` when (and only because) a computed delta is zero, and otherwise
returns `(cpu_delta / system_delta) * online_cpus * 100` over the computed
deltas; at `cpu_delta = 50`, `system_delta = 100`, `online_cpus = 4` it
returns exactly `200`. -/
theorem calculate_cpu_percent_u64_spec :
    (∀ stats, cpu_delta stats = 0 ∨ system_delta stats = 0 →
      calculate_cpu_percent stats = 0)
    ∧ (∀ stats, 0 < cpu_delta stats → 0 < system_delta stats →
        calculate_cpu_percent stats
          = (cpu_delta stats : ℚ) / (system_delta stats : ℚ)
              * (onlineCpusOf stats : ℚ) * 100)
    ∧ calculate_cpu_percent statsSample = 200 := by
  refine ⟨calculate_cpu_percent_zero_delta,
    fun stats hc hs => calculate_cpu_percent_pos stats hc hs, ?_⟩
  rw [calculate_cpu_percent_pos statsSample (by decide) (by decide)]
  rw [show cpu_delta statsSample = 50 from by decide,
    show system_delta statsSample = 100 from by decide,
    show onlineCpusOf statsSample = 4 from by decide]
  norm_num

/-- Stats whose computed CPU delta is zero (equal consecutive counters). -/
def statsZeroDelta : ContainerStatsResponse :=
  { cpu_stats := some
      { cpu_usage := some { total_usage := some 7 },
        system_cpu_usage := some 100, online_cpus := some 4 },
    precpu_stats := some
      { cpu_usage := some { total_usage := some 7 },
        system_cpu_usage := some 0 } }

/-- Witness for C5 (amended): the zero guard fires on a concrete sample with
computed `cpu_delta = 0`, and the positive branch yields exactly `200` on
the concrete `50 / 100 / 4` sample. -/
theorem calculate_cpu_percent_u64_spec_witness :
    calculate_cpu_percent statsZeroDelta = 0
    ∧ calculate_cpu_percent statsSample = 200 :=
  ⟨calculate_cpu_percent_u64_spec.1 statsZeroDelta (Or.inl (by decide)),
   calculate_cpu_percent_u64_spec.2.2⟩

/-! ## Disk-usage parsing -/

/-- Counterexample to C6 as stated: handed exactly the data line (with no
header line before it), `parse_disk_usage` consumes it as the skipped header
and yields `none`, not the claimed record. -/
theorem parse_disk_usage_single_line_cex :
    parse_disk_usage "/dev/sda1 100M 40M 60M 40% /mnt/user" = none
    ∧ parse_disk_usage "/dev/sda1 100M 40M 60M 40% /mnt/user"
        ≠ some ⟨"100M", "60M", 40⟩ := by
  decide

/-- C6 (amended): `parse_disk_usage` skips the first output line as the `df`
header; when the second line is `"/dev/sda1 100M 40M 60M 40% /mnt/user"` it
yields total `"100M"`, available `"60M"`, usage `40`, and when the second
line has fewer than 5 whitespace-separated fields it yields `none` rather
than a fault. -/
theorem parse_disk_usage_spec :
    parse_disk_usage
        "Filesystem 1M-blocks Used Available Use% Mounted on\n/dev/sda1 100M 40M 60M 40% /mnt/user"
      = some ⟨"100M", "60M", 40⟩
    ∧ parse_disk_usage
        "Filesystem 1M-blocks Used Available Use% Mounted on\n/dev/sda1 100M 40M"
      = none := by
  decide

/-! ## System memory-usage reporter -/

/-- Counterexample to C7 as stated: with a zero total-memory snapshot the
memory-usage division produces IEEE `NaN` (0.0/0.0), which formats as
`"NaN"` — a defined value, but not the claimed output `0`. -/
theorem memory_usage_zero_total_cex :
    SystemSensorReporter.get_value ⟨⟨0, 0, .finite 0, 0⟩, .memoryUsage⟩ = some "NaN"
    ∧ SystemSensorReporter.get_value ⟨⟨0, 0, .finite 0, 0⟩, .memoryUsage⟩ ≠ some "0"
    ∧ SystemSensorReporter.get_value ⟨⟨0, 0, .finite 0, 0⟩, .memoryUsage⟩ ≠ some "0.0" := by
  decide

/-- C7 (amended): the system reporter is a pure computation over the
snapshot that always produces a value; when the snapshot's total memory is
zero, the memory-usage division yields a non-finite double — `NaN` when used
memory is also zero, `+∞` otherwise — formatted as `"NaN"`/`"inf"`, not a
fault, and not the output `0`. -/
theorem system_reporter_total_spec (r : SystemSensorReporter) :
    (∃ v, r.get_value = some v)
    ∧ (r.name = .memoryUsage → r.system.total_memory = 0 →
        r.get_value = some (if r.system.used_memory = 0 then "NaN" else "inf")) := by
  obtain ⟨⟨t, u, g, up⟩, nm⟩ := r
  constructor
  · cases nm <;> exact ⟨_, rfl⟩
  · intro hn h0
    cases nm with
    | memoryUsage =>
      simp only at h0
      subst h0
      by_cases hu : u = 0
      · subst hu
        simp [SystemSensorReporter.get_value, fdiv, fmul, formatPrec1]
      · have hpos : (0 : ℚ) < (u : ℚ) := by
          exact_mod_cast Nat.pos_of_ne_zero hu
        simp [SystemSensorReporter.get_value, fdiv, fmul, formatPrec1, hu,
          Nat.cast_eq_zero, hpos, not_lt_of_gt hpos, ne_of_gt hpos]
    | memoryUsed => exact absurd hn (by simp)
    | memoryTotal => exact absurd hn (by simp)
    | cpuUsage => exact absurd hn (by simp)
    | uptime => exact absurd hn (by simp)

/-- Witness for C7 (amended): a snapshot with zero total and non-zero used
memory reports `"inf"`. -/
theorem system_reporter_total_spec_witness :
    SystemSensorReporter.get_value ⟨⟨0, 5, .finite 0, 0⟩, .memoryUsage⟩ = some "inf" := by
  have h := (system_reporter_total_spec ⟨⟨0, 5, .finite 0, 0⟩, .memoryUsage⟩).2 rfl rfl
  simpa using h

/-! ## Doubled icon prefix in discovery documents -/

/-- C10: every per-container built-in sensor is constructed with an icon that
already starts with `"mdi:"`, and `disovery_config` prefixes `"mdi:"`
unconditionally, so the rendered discovery document's icon starts with the
doubled prefix `"mdi:mdi:"`. -/
theorem container_icon_double_mdi (device_name node_id device_info : String)
    (c : ContainerSummary) (s : Sensor) (hs : s ∈ container_sensors device_name c) :
    ∃ rest, (s.disovery_config device_name node_id device_info).icon
      = some ("mdi:mdi:" ++ rest) := by
  simp only [container_sensors, List.mem_cons, List.not_mem_nil, or_false] at hs
  rcases hs with rfl | rfl | rfl
  · exact ⟨"cpu-64-bit", rfl⟩
  · exact ⟨"memory", rfl⟩
  · exact ⟨"docker", rfl⟩

/-- Container summary named `/web`, for concrete scenarios. -/
def webC : ContainerSummary := { names := some ["/web"] }

/-- Container summary named `/db`, for concrete scenarios. -/
def dbC : ContainerSummary := { names := some ["/db"] }

/-- Placeholder host snapshot for concrete scenarios. -/
def sysSample : SysinfoSystem := ⟨0, 0, .finite 0, 0⟩

/-- The CPU sensor the catalog builds for container `web` on device
`"srv"`. -/
def sensorWebCpuBuilt : Sensor :=
  { id := "dockercontainer_web_cpu", name := "srv Docker web CPU",
    icon := some "mdi:cpu-64-bit", unit := some "%",
    reporter := some (.dockerContainer { container := webC, stat := .cpuUsage }) }

/-- Witness for C10 at the concrete `web` CPU sensor: the rendered icon is
`"mdi:mdi:cpu-64-bit"`. -/
theorem container_icon_double_mdi_witness :
    ∃ rest, (sensorWebCpuBuilt.disovery_config "srv" "unraid_srv" "device").icon
      = some ("mdi:mdi:" ++ rest) :=
  container_icon_double_mdi "srv" "unraid_srv" "device" webC sensorWebCpuBuilt
    (by decide)

/-! ## The disable-then-re-enable scenario -/

/-- Model of Rust `str::starts_with`. -/
def strStartsWith (pre s : String) : Bool :=
  pre.data.isPrefixOf s.data

/-- Model of Rust `str::ends_with`. -/
def strEndsWith (suf s : String) : Bool :=
  suf.data.reverse.isPrefixOf s.data.reverse

/-- A per-container memory sensor id: `dockercontainer_{name}_memory`. -/
def isDockerMemoryId (id : String) : Bool :=
  strStartsWith "dockercontainer_" id && strEndsWith "_memory" id

/-- The C4 scenario configuration: a wildcard override disabling every
`dockercontainer_*_memory` sensor plus an exact override carrying
`disabled = false` for `dockercontainer_web_memory`. -/
def scenarioCfg : Config :=
  ⟨[("dockercontainer_*_memory", .sensorOverride
      { id := "dockercontainer_*_memory", disabled := true }),
    ("dockercontainer_web_memory", .sensorOverride
      { id := "dockercontainer_web_memory", disabled := false })]⟩

/-- Counterexample to C4 as stated: in the scenario catalog (containers
`web` and `db`) the final list does not contain exactly one enabled
per-container memory sensor — the exact override's `disabled = false` is
never applied, so the count of enabled memory sensors is not 1. -/
theorem scenario_reenable_cex :
    ¬ ((sensors_list "srv" [webC, dbC] sysSample (some scenarioCfg)).filter
        (fun s => isDockerMemoryId s.id && !s.disabled)).length = 1 := by
  decide

/-- C4 (amended): in the scenario, the wildcard override disables every
per-container memory sensor and the exact override cannot re-enable
`dockercontainer_web_memory` (merge ignores `disabled = false`), so every
per-container memory sensor in the final list — `web` included — is
disabled. -/
theorem scenario_all_memory_disabled :
    ((sensors_list "srv" [webC, dbC] sysSample (some scenarioCfg)).filter
        (fun s => isDockerMemoryId s.id)).map (fun s => (s.id, s.disabled))
      = [("dockercontainer_web_memory", true), ("dockercontainer_db_memory", true)] := by
  decide

/-! ## Uniqueness and non-emptiness of final sensor ids -/

/-- The ids of the fifteen static built-in sensors, in catalog order. -/
def static_sensor_ids : List String :=
  ["cpu_usage", "memory_usage", "memory_total", "memory_used", "disk_usage",
   "disk_total", "disk_available", "cpu_temp", "uptime", "array_status",
   "docker_containers_running", "docker_containers_unhealthy",
   "docker_images_count", "docker_images_size", "docker_volumes_count"]

/-- The ids of the per-container sensor triplet for a container name. -/
def container_ids (n : String) : List String :=
  ["dockercontainer_" ++ n ++ "_cpu", "dockercontainer_" ++ n ++ "_memory",
   "dockercontainer_" ++ n ++ "_uptime"]

/-- The ids of every sensor the catalog builder produces, before overrides. -/
def base_ids (names : List String) : List String :=
  static_sensor_ids ++ names.flatMap container_ids

/-- The keys of the command-typed configuration entries. -/
def command_keys (c : Config) : List String :=
  c.sensors.filterMap (fun e =>
    match e.2 with
    | .command _ => some e.1
    | _ => none)

/-- The static catalog's ids are the fixed list, whatever the snapshot. -/
theorem staticSensors_ids (sys : SysinfoSystem) :
    (staticSensors sys).map (·.id) = static_sensor_ids := rfl

/-- A container triplet's ids are derived from the container's name. -/
theorem container_sensors_ids (d : String) (c : ContainerSummary) :
    (container_sensors d c).map (·.id) = container_ids (container_name c) := rfl

/-- The override engine never changes a sensor's id. -/
theorem apply_overrides_id (cfg : Config) (s : Sensor) :
    (apply_overrides cfg s).id = s.id := by
  unfold apply_overrides
  rcases hA : cfg.get (star_id s.id) with _ | xA <;>
    rcases hE : cfg.get s.id with _ | xE
  · rfl
  · cases xE <;> simp [merge_id]
  · cases xA <;> simp [merge_id]
  · cases xA <;> cases xE <;> simp [merge_id]

/-- On a well-formed entry list, the appended command sensors carry exactly
the command-typed keys as ids. -/
theorem command_ids_aux (l : List (String × Sensors))
    (hwf : ∀ e ∈ l, Sensors.entryId e.2 = e.1) :
    (l.filterMap (fun e =>
        match e.2 with
        | .command cs => some (commandToSensor cs)
        | _ => none)).map (·.id)
      = l.filterMap (fun e =>
        match e.2 with
        | .command _ => some e.1
        | _ => none) := by
  induction l with
  | nil => rfl
  | cons e t ih =>
    have he := hwf e (List.mem_cons_self e t)
    have ht := ih (fun x hx => hwf x (List.mem_cons_of_mem e hx))
    obtain ⟨k, v⟩ := e
    cases v with
    | sensorOverride sc => simpa using ht
    | command cs =>
      simp only [List.filterMap_cons, List.map_cons, ht]
      exact congrArg (· :: _) he

/-- The ids of the final sensor list decompose into the catalog ids followed
by the command-typed configuration keys. -/
theorem sensors_list_ids (d : String) (cs : List ContainerSummary)
    (sys : SysinfoSystem) (c : Config) (hwf : c.wellformed) :
    (sensors_list d cs sys (some c)).map (·.id)
      = base_ids (cs.map container_name) ++ command_keys c := by
  unfold sensors_list base_ids
  rw [List.map_append]
  congr 1
  · rw [List.map_map]
    have hfun : ((·.id) ∘ apply_overrides c) = fun s : Sensor => s.id :=
      funext (apply_overrides_id c)
    rw [hfun, List.map_append, List.map_flatMap, List.flatMap_map]
    rfl
  · exact command_ids_aux c.sensors hwf

/-- The character at byte-free index 6 of an id (`' '` when absent); every
container-derived id has `'c'` there, inside the `"dockercontainer_"`
prefix. -/
def charAt6 (s : String) : Char := s.data.getD 6 ' '

/-- The last character of an id (`' '` when empty). -/
def lastCharOf (s : String) : Char := s.data.getLast?.getD ' '

/-- Container ids all carry `'c'` at index 6 (within the fixed prefix). -/
theorem charAt6_container (n b : String) :
    charAt6 ("dockercontainer_" ++ n ++ b) = 'c' := by
  have h16 : ("dockercontainer_".data).length = 16 := rfl
  unfold charAt6
  rw [String.data_append, String.data_append,
    List.getD_append ("dockercontainer_".data ++ n.data) b.data ' ' 6
      (by rw [List.length_append, h16]; omega),
    List.getD_append "dockercontainer_".data n.data ' ' 6 (by rw [h16]; omega)]
  rfl

/-- The last character of an appended string is the suffix's last character
when the suffix is non-empty. -/
theorem lastCharOf_append (a b : String) (hb : b.data ≠ []) :
    lastCharOf (a ++ b) = b.data.getLast?.getD ' ' := by
  unfold lastCharOf
  rw [String.data_append, List.getLast?_append_of_ne_nil _ hb]

/-- Container ids with suffixes of different last characters differ, whatever
the container names. -/
theorem container_id_ne_of_last (n1 n2 b1 b2 : String)
    (h1 : b1.data ≠ []) (h2 : b2.data ≠ [])
    (hl : b1.data.getLast?.getD ' ' ≠ b2.data.getLast?.getD ' ') :
    "dockercontainer_" ++ n1 ++ b1 ≠ "dockercontainer_" ++ n2 ++ b2 := by
  intro h
  apply hl
  rw [← lastCharOf_append ("dockercontainer_" ++ n1) b1 h1,
    ← lastCharOf_append ("dockercontainer_" ++ n2) b2 h2, h]

/-- Container ids with the same suffix and equal values come from the same
name. -/
theorem container_id_inj (n1 n2 b : String)
    (h : "dockercontainer_" ++ n1 ++ b = "dockercontainer_" ++ n2 ++ b) :
    n1 = n2 := by
  have hd := congrArg String.data h
  simp only [String.data_append, List.append_assoc] at hd
  exact String.ext (List.append_cancel_right (List.append_cancel_left hd))

/-- The triplet of ids of one container is duplicate-free. -/
theorem container_ids_nodup (n : String) : (container_ids n).Nodup := by
  unfold container_ids
  refine List.nodup_cons.2 ⟨?_, List.nodup_cons.2 ⟨?_, List.nodup_singleton _⟩⟩
  · simp only [List.mem_cons, List.not_mem_nil, or_false, not_or]
    exact ⟨container_id_ne_of_last n n "_cpu" "_memory" (by decide) (by decide) (by decide),
      container_id_ne_of_last n n "_cpu" "_uptime" (by decide) (by decide) (by decide)⟩
  · simp only [List.mem_singleton]
    exact container_id_ne_of_last n n "_memory" "_uptime" (by decide) (by decide) (by decide)

/-- Triplets of distinct container names share no id. -/
theorem container_ids_disjoint (n1 n2 : String) (hne : n1 ≠ n2) :
    List.Disjoint (container_ids n1) (container_ids n2) := by
  intro x hx hy
  simp only [container_ids, List.mem_cons, List.not_mem_nil, or_false] at hx hy
  rcases hx with rfl | rfl | rfl <;> rcases hy with h | h | h <;>
    first
      | exact hne (container_id_inj _ _ _ h)
      | exact container_id_ne_of_last _ _ _ _ (by decide) (by decide) (by decide) h

/-- The concatenated container triplets of duplicate-free names are
duplicate-free. -/
theorem flatMap_container_ids_nodup (names : List String) (h : names.Nodup) :
    (names.flatMap container_ids).Nodup := by
  induction names with
  | nil => simp
  | cons x xs ih =>
    rw [List.flatMap_cons, List.nodup_append]
    refine ⟨container_ids_nodup x, ih (List.Nodup.of_cons h), ?_⟩
    intro a ha hb
    obtain ⟨y, hy, hay⟩ := List.mem_flatMap.1 hb
    have hxy : x ≠ y := fun e => (List.nodup_cons.1 h).1 (e ▸ hy)
    exact container_ids_disjoint x y hxy ha hay

/-- No static id has `'c'` at index 6. -/
theorem static_charAt6 : ∀ s ∈ static_sensor_ids, charAt6 s ≠ 'c' := by decide

/-- Static ids never coincide with container-derived ids. -/
theorem static_disjoint_container (names : List String) :
    List.Disjoint static_sensor_ids (names.flatMap container_ids) := by
  intro a ha hb
  obtain ⟨y, _, hay⟩ := List.mem_flatMap.1 hb
  simp only [container_ids, List.mem_cons, List.not_mem_nil, or_false] at hay
  have hc : charAt6 a = 'c' := by
    rcases hay with rfl | rfl | rfl <;> exact charAt6_container _ _
  exact static_charAt6 a ha hc

/-- The catalog ids are duplicate-free when the container names are. -/
theorem base_ids_nodup (names : List String) (h : names.Nodup) :
    (base_ids names).Nodup := by
  unfold base_ids
  rw [List.nodup_append]
  exact ⟨by decide, flatMap_container_ids_nodup names h,
    static_disjoint_container names⟩

/-- A container-derived id is never empty. -/
theorem container_id_ne_empty (n b : String) :
    "dockercontainer_" ++ n ++ b ≠ "" := by
  have h16 : ("dockercontainer_".data).length = 16 := rfl
  have h0 : ("".data).length = 0 := rfl
  intro h
  have hlen := congrArg (fun s : String => s.data.length) h
  simp only [String.data_append, List.length_append, h16, h0] at hlen
  omega

/-- Every catalog id is non-empty. -/
theorem base_ids_ne_empty (names : List String) :
    ∀ x ∈ base_ids names, x ≠ "" := by
  intro x hx
  unfold base_ids at hx
  rcases List.mem_append.1 hx with h | h
  · exact (show ∀ s ∈ static_sensor_ids, s ≠ "" by decide) x h
  · obtain ⟨y, _, hay⟩ := List.mem_flatMap.1 h
    simp only [container_ids, List.mem_cons, List.not_mem_nil, or_false] at hay
    rcases hay with rfl | rfl | rfl <;> exact container_id_ne_empty _ _

/-- The command-typed keys form a sublist of all configuration keys. -/
theorem command_keys_sublist_aux (l : List (String × Sensors)) :
    (l.filterMap (fun e =>
        match e.2 with
        | .command _ => some e.1
        | _ => none)).Sublist (l.map (·.1)) := by
  induction l with
  | nil => simp
  | cons e t ih =>
    obtain ⟨k, v⟩ := e
    cases v with
    | sensorOverride sc =>
      simp only [List.filterMap_cons, List.map_cons]
      exact List.Sublist.cons k ih
    | command cs =>
      simp only [List.filterMap_cons, List.map_cons]
      exact List.Sublist.cons₂ k ih

/-- C8 (amended): every sensor in the final list has an id drawn from the
catalog ids or the command-typed configuration keys; the ids are non-empty
and unique within the list provided the derived container names are pairwise
distinct and the command-typed keys are non-empty and distinct from every
catalog id — without the latter the code appends a duplicate, since command
entries are appended unconditionally. -/
theorem sensors_list_ids_unique (d : String) (cs : List ContainerSummary)
    (sys : SysinfoSystem) (c : Config)
    (hwf : c.wellformed)
    (hkeys : (c.sensors.map (·.1)).Nodup)
    (hne : ∀ k ∈ command_keys c, k ≠ "")
    (hdisj : ∀ k ∈ command_keys c, k ∉ base_ids (cs.map container_name))
    (hnames : (cs.map container_name).Nodup) :
    ((sensors_list d cs sys (some c)).map (·.id)).Nodup
    ∧ ∀ s ∈ sensors_list d cs sys (some c), s.id ≠ "" := by
  have hids := sensors_list_ids d cs sys c hwf
  constructor
  · rw [hids, List.nodup_append]
    refine ⟨base_ids_nodup _ hnames, ?_, ?_⟩
    · exact List.Nodup.sublist (command_keys_sublist_aux c.sensors) hkeys
    · exact fun a hb hc => hdisj a hc hb
  · intro s hs
    have hmem : s.id ∈ (sensors_list d cs sys (some c)).map (·.id) :=
      List.mem_map_of_mem _ hs
    rw [hids] at hmem
    rcases List.mem_append.1 hmem with h | h
    · exact base_ids_ne_empty _ s.id h
    · exact hne s.id h

/-- Configuration whose single command entry reuses the built-in id
`cpu_usage`. -/
def cfgDupKey : Config :=
  ⟨[("cpu_usage", .command { id := "cpu_usage", name := "X", command := "true" })]⟩

/-- Counterexample to C8 as stated: a command-typed configuration entry keyed
by the built-in id `cpu_usage` is appended unconditionally, so the final list
carries the id `cpu_usage` twice and its ids are not unique. -/
theorem sensors_list_dup_id_cex :
    ¬ ((sensors_list "srv" [] sysSample (some cfgDupKey)).map (·.id)).Nodup := by
  decide

/-- Configuration with one fresh command entry, for the C8 witness. -/
def cfgFreshCmd : Config :=
  ⟨[("my_script", .command { id := "my_script", name := "My Script", command := "echo" })]⟩

/-- Witness for C8 (amended) on a concrete catalog with one container and a
fresh command key: all final ids are unique and non-empty. -/
theorem sensors_list_ids_unique_witness :
    ((sensors_list "srv" [webC] sysSample (some cfgFreshCmd)).map (·.id)).Nodup
    ∧ ∀ s ∈ sensors_list "srv" [webC] sysSample (some cfgFreshCmd), s.id ≠ "" :=
  sensors_list_ids_unique "srv" [webC] sysSample cfgFreshCmd
    (by decide) (by decide) (by decide) (by decide) (by decide)

end UnraidMqtt
